import Mathlib

/-!
Shallow embedding of the span-to-metric bridge of the
`fastapi_tracing` package:

* `src/fastapi_tracing/ops.py` — `SpanToMetricProcessor.__init__`,
  `SpanToMetricProcessor.on_end`, and the processor-registration part of
  `setup_otel`;
* `src/fastapi_tracing/app.py` — the allow-list construction loop of
  `_setup_app`.

Python `Optional[int]` timestamps are modelled as `Option Int`; the
truthiness test `not x` used by `on_end` is `pyFalsy`.  The histogram
instrument owned by the metrics pipeline is modelled as the list of
samples recorded on it so far: `on_end` takes the processor state and the
current record log and returns both, appending at most one sample.
Latency is computed in exact rational arithmetic, mirroring the exact
value of the Python expression `(end - start) / 1_000_000`.
-/

/-- A scalar span-attribute value: the loosely-typed values FastAPI
instrumentation attaches to spans (strings or numbers). -/
inductive AttrValue where
  | str : String → AttrValue
  | int : Int → AttrValue
deriving DecidableEq, Repr

/-- SpanAttributes.HTTP_METHOD semantic-convention key. -/
def HTTP_METHOD : String := "http.method"

/-- SpanAttributes.HTTP_ROUTE semantic-convention key. -/
def HTTP_ROUTE : String := "http.route"

/-- SpanAttributes.HTTP_STATUS_CODE semantic-convention key. -/
def HTTP_STATUS_CODE : String := "http.status_code"

/-- SpanAttributes.HTTP_FLAVOR semantic-convention key. -/
def HTTP_FLAVOR : String := "http.flavor"

/-- A completed span as `on_end` consumes it: `name`, the private
nanosecond timestamps `_start_time` / `_end_time` (absent = Python
`None`), and the attribute mapping (`attributes.get` = `List.lookup`). -/
structure Span where
  name : String
  start_time : Option Int
  end_time : Option Int
  attributes : List (String × AttrValue)
deriving DecidableEq, Repr

/-- Python truthiness test `not x` on an `Optional[int]`: true exactly
when the value is `None` or `0`. -/
def pyFalsy : Option Int → Bool
  | none => true
  | some n => n == 0

/-- The processor state set up by `SpanToMetricProcessor.__init__`:
the allow-list `self.span_names` (a Python `set[str]`) and the handle of
the histogram instrument `self.request_latency_histogram`. -/
structure SpanToMetricProcessor where
  span_names : Finset String
  request_latency_histogram : Nat
deriving DecidableEq

/-- The fixed-shape `metric_attributes` dict built by `on_end`: exactly
four keys, each value possibly `None`. -/
structure MetricAttributes where
  http_method : Option AttrValue
  http_route : Option AttrValue
  http_status_code : Option AttrValue
  http_flavor : Option AttrValue
deriving DecidableEq, Repr

/-- One sample recorded on the histogram by
`self.request_latency_histogram.record(amount=..., attributes=...)`. -/
structure Sample where
  amount : ℚ
  attributes : MetricAttributes
deriving DecidableEq, Repr

/-- SpanToMetricProcessor.on_end (ops.py lines 77–105), translated
line by line.  `histogram_log` is the list of samples recorded on the
instrument before this call; the result pairs the processor state after
the call with the record log after the call. -/
def SpanToMetricProcessor.on_end (self : SpanToMetricProcessor)
    (histogram_log : List Sample) (span : Span) :
    SpanToMetricProcessor × List Sample :=
  -- 1. Filter for the spans to turn into metrics.
  if span.name ∉ self.span_names then
    (self, histogram_log)
  else
    -- 2. Calculate latency directly from the span.
    let start_time_ns := span.start_time
    let end_time_ns := span.end_time
    if pyFalsy start_time_ns || pyFalsy end_time_ns then
      (self, histogram_log)
    else
      let latency_ms : ℚ :=
        ((end_time_ns.getD 0 - start_time_ns.getD 0 : Int) : ℚ) / 1000000
      -- 3. Extract attributes from the span as metric dimensions.
      let metric_attributes : MetricAttributes :=
        { http_method := span.attributes.lookup HTTP_METHOD
          http_route := span.attributes.lookup HTTP_ROUTE
          http_status_code := span.attributes.lookup HTTP_STATUS_CODE
          http_flavor := span.attributes.lookup HTTP_FLAVOR }
      -- 5. Record the metric with its attributes.
      (self, histogram_log ++ [{ amount := latency_ms
                                 attributes := metric_attributes }])

/-- One entry of the FastAPI route table: a path template and the set of
HTTP methods it accepts (`route.methods`), as `_setup_app` enumerates
them. -/
structure APIRoute where
  path : String
  methods : List String
deriving DecidableEq, Repr

/-- The allow-list construction loop of `_setup_app` (app.py lines
39–42): for every route, for every method, add `f"{method} {route.path}"`
to the set `spans_to_emit_as_metrics`. -/
def spans_to_emit_as_metrics (routes : List APIRoute) : Finset String :=
  routes.foldl
    (fun acc route =>
      route.methods.foldl
        (fun acc2 method => insert (method ++ " " ++ route.path) acc2) acc)
    ∅

/-- Character-wise string uppercasing, used only to state the spec's
version of the allow-list algorithm. -/
def strUpper (s : String) : String := String.mk (s.data.map Char.toUpper)

/-- Modelled from the spec (not from the source): the spec's stated
allow-list algorithm, which composes the string with the method
UPPERCASED.  Kept separate so it can be compared with
`spans_to_emit_as_metrics`, the loop actually in `_setup_app`, which
uses the method verbatim. -/
def allow_list_spec (routes : List APIRoute) : Finset String :=
  routes.foldl
    (fun acc route =>
      route.methods.foldl
        (fun acc2 method =>
          insert (strUpper method ++ " " ++ route.path) acc2) acc)
    ∅

/-- The processor-registration decision of `setup_otel` (ops.py lines
108–115), restricted to the metric path: the guard
`if span_metrics_names:` registers a `SpanToMetricProcessor` only when
the argument is neither `None` nor the empty set.  Returns the list of
metric processors added to the tracer provider. -/
def setup_otel (span_metrics_names : Option (Finset String)) :
    List SpanToMetricProcessor :=
  match span_metrics_names with
  | none => []
  | some names =>
      if names = ∅ then []
      else [{ span_names := names, request_latency_histogram := 0 }]

/-- Samples recorded for one ended span by the processors `setup_otel`
registered: each registered processor observes the span in order. -/
def pipeline_on_end (procs : List SpanToMetricProcessor)
    (histogram_log : List Sample) (span : Span) : List Sample :=
  procs.foldl (fun log p => (p.on_end log span).2) histogram_log

/-- The span names one route contributes to the allow-list: one string
per accepted method, the method verbatim. -/
def routeSpanNames (route : APIRoute) : List String :=
  route.methods.map (fun method => method ++ " " ++ route.path)

/-! ## Helper lemmas about the allow-list fold -/

lemma foldl_insert_eq (l : List String) (s : Finset String) :
    l.foldl (fun acc x => insert x acc) s = s ∪ l.toFinset := by
  induction l generalizing s with
  | nil => simp
  | cons x xs ih =>
      simp only [List.foldl_cons, ih, List.toFinset_cons]
      rw [Finset.insert_union, Finset.union_insert]

lemma spans_foldl_eq (routes : List APIRoute) (s : Finset String) :
    routes.foldl
      (fun acc route =>
        route.methods.foldl
          (fun acc2 method => insert (method ++ " " ++ route.path) acc2) acc)
      s = s ∪ (routes.flatMap routeSpanNames).toFinset := by
  induction routes generalizing s with
  | nil => simp
  | cons r rs ih =>
      simp only [List.foldl_cons, List.flatMap_cons, List.toFinset_append]
      have hr : r.methods.foldl
          (fun acc2 method => insert (method ++ " " ++ r.path) acc2) s =
          s ∪ (routeSpanNames r).toFinset := by
        have h := foldl_insert_eq (routeSpanNames r) s
        rw [← h]
        unfold routeSpanNames
        rw [List.foldl_map]
      rw [hr, ih, Finset.union_assoc]

lemma spans_eq (routes : List APIRoute) :
    spans_to_emit_as_metrics routes =
      (routes.flatMap routeSpanNames).toFinset := by
  unfold spans_to_emit_as_metrics
  rw [spans_foldl_eq, Finset.empty_union]

/-! ## Claim theorems -/

/-- C1, counterexample.  The claim quantifies over spans whose
timestamps are both PRESENT; the span below has both timestamps present
(`isSome`), its name is in the allow-list, yet `on_end` records zero
samples instead of the claimed one sample: the truthiness check of
`if not start_time_ns or not end_time_ns` also rejects the present
value `0`. -/
theorem C1_counterexample :
    ("GET /ping" : String) ∈
        (SpanToMetricProcessor.mk {"GET /ping"} 0).span_names ∧
    (Span.mk "GET /ping" (some 0) (some 5000000) []).start_time.isSome = true ∧
    (Span.mk "GET /ping" (some 0) (some 5000000) []).end_time.isSome = true ∧
    ((SpanToMetricProcessor.mk {"GET /ping"} 0).on_end []
        (Span.mk "GET /ping" (some 0) (some 5000000) [])).2 = [] := by
  refine ⟨by decide, rfl, rfl, by decide⟩

/-- C1, amended.  For every span whose name is in the allow-list and
whose start and end timestamps are both present AND nonzero, `on_end`
records exactly one histogram sample whose amount equals
(end_time_ns - start_time_ns) / 1_000_000, with no clamping: a negative
duration is passed through unchanged. -/
theorem C1_theorem (p : SpanToMetricProcessor) (log : List Sample)
    (span : Span) (s e : Int) (hmem : span.name ∈ p.span_names)
    (hs : span.start_time = some s) (he : span.end_time = some e)
    (hs0 : s ≠ 0) (he0 : e ≠ 0) :
    ∃ attrs, (p.on_end log span).2 =
      log ++ [{ amount := ((e - s : Int) : ℚ) / 1000000
                attributes := attrs }] := by
  refine ⟨{ http_method := span.attributes.lookup HTTP_METHOD
            http_route := span.attributes.lookup HTTP_ROUTE
            http_status_code := span.attributes.lookup HTTP_STATUS_CODE
            http_flavor := span.attributes.lookup HTTP_FLAVOR }, ?_⟩
  unfold SpanToMetricProcessor.on_end
  rw [hs, he]
  simp [hmem, pyFalsy, hs0, he0]

/-- C1, witness: the negative-duration span of the claim
(start = 10,000,000 ns, end = 5,000,000 ns) yields exactly one sample
with amount (5,000,000 − 10,000,000) / 1,000,000 = −5. -/
theorem C1_witness :
    ∃ attrs,
      ((SpanToMetricProcessor.mk {"GET /ping"} 0).on_end []
        (Span.mk "GET /ping" (some 10000000) (some 5000000) [])).2 =
      [] ++ [{ amount := (((5000000 : Int) - (10000000 : Int) : Int) : ℚ) / 1000000
               attributes := attrs }] :=
  C1_theorem _ _ _ _ _ (by decide) rfl rfl (by decide) (by decide)

/-- C2.  For every span whose name is not a member of the allow-list,
`on_end` returns immediately: zero samples recorded, processor state and
histogram log unchanged.  Membership in the `Finset String` allow-list
is exact string equality, not pattern matching. -/
theorem C2_theorem (p : SpanToMetricProcessor) (log : List Sample)
    (span : Span) (hmem : span.name ∉ p.span_names) :
    p.on_end log span = (p, log) := by
  unfold SpanToMetricProcessor.on_end
  simp [hmem]

/-- C2, witness: scenario B — allow-list {"GET /ping"}, span
"GET /other" with valid timestamps records zero samples. -/
theorem C2_witness :
    (SpanToMetricProcessor.mk {"GET /ping"} 0).on_end []
        (Span.mk "GET /other" (some 1000000) (some 6000000) []) =
      (SpanToMetricProcessor.mk {"GET /ping"} 0, []) :=
  C2_theorem _ _ _ (by decide)

/-- C3.  For every span with an absent start or end timestamp, `on_end`
records zero samples and returns normally (the embedding is a total
function: no error can propagate), regardless of whether the span's name
is in the allow-list. -/
theorem C3_theorem (p : SpanToMetricProcessor) (log : List Sample)
    (span : Span)
    (h : span.start_time = none ∨ span.end_time = none) :
    p.on_end log span = (p, log) := by
  unfold SpanToMetricProcessor.on_end
  rcases h with h | h <;> rw [h] <;> simp [pyFalsy]

/-- C3, witness: scenario C — span "GET /ping" in the allow-list with
start = 0 and end = None records zero samples. -/
theorem C3_witness :
    (SpanToMetricProcessor.mk {"GET /ping"} 0).on_end []
        (Span.mk "GET /ping" (some 0) none []) =
      (SpanToMetricProcessor.mk {"GET /ping"} 0, []) :=
  C3_theorem _ _ _ (Or.inr rfl)

/-- C4, counterexample.  Scenario A as the claim states it: allow-list
{"GET /ping"}, span "GET /ping" with start = 0 ns, end = 5,000,000 ns.
The claim asserts one sample with amount 5.0; the code records ZERO
samples, because `if not start_time_ns` also rejects the present value
0. -/
theorem C4_counterexample :
    (SpanToMetricProcessor.mk {"GET /ping"} 0).on_end []
        (Span.mk "GET /ping" (some 0) (some 5000000) []) =
      (SpanToMetricProcessor.mk {"GET /ping"} 0, []) := by
  decide

/-- C4, amended.  With allow-list {"GET /ping"}, a span "GET /ping" with
start = 0 ns and end = 5,000,000 ns records ZERO samples (the zero start
timestamp fails the truthiness validity check); shifting both timestamps
to nonzero values of the same difference (start = 1,000,000 ns,
end = 6,000,000 ns) records exactly one sample with amount 5.0 ms. -/
theorem C4_theorem :
    (SpanToMetricProcessor.mk {"GET /ping"} 0).on_end []
        (Span.mk "GET /ping" (some 0) (some 5000000) []) =
      (SpanToMetricProcessor.mk {"GET /ping"} 0, []) ∧
    ((SpanToMetricProcessor.mk {"GET /ping"} 0).on_end []
        (Span.mk "GET /ping" (some 1000000) (some 6000000) [])).2 =
      [{ amount := 5
         attributes := MetricAttributes.mk none none none none }] := by
  constructor
  · decide
  · norm_num [SpanToMetricProcessor.on_end, pyFalsy, HTTP_METHOD, HTTP_ROUTE,
      HTTP_STATUS_CODE, HTTP_FLAVOR, List.lookup]

/-- C5, counterexample.  The claim says the allow-list holds the method
UPPERCASED.  For the route table [("/x", \x7bget\x7d)] the spec algorithm
(`allow_list_spec`) yields \x7b"GET /x"\x7d but the `_setup_app` loop yields
\x7b"get /x"\x7d: the code composes the method verbatim and never
uppercases. -/
theorem C5_counterexample :
    spans_to_emit_as_metrics [APIRoute.mk "/x" ["get"]] ≠
      allow_list_spec [APIRoute.mk "/x" ["get"]] ∧
    spans_to_emit_as_metrics [APIRoute.mk "/x" ["get"]] = {"get /x"} ∧
    allow_list_spec [APIRoute.mk "/x" ["get"]] = {"GET /x"} := by
  refine ⟨by decide, by decide, by decide⟩

/-- C5, amended.  For every route table, the allow-list is exactly the
set of strings "METHOD path" over every (route, accepted method) pair,
with the method taken VERBATIM (no uppercasing; FastAPI stores route
methods already uppercased) and the path preserved verbatim; the route
table [("/hash", \x7bPOST\x7d), ("/slow/and/unstable", \x7bGET\x7d)] yields
exactly \x7b"POST /hash", "GET /slow/and/unstable"\x7d. -/
theorem C5_theorem :
    (∀ routes : List APIRoute,
        spans_to_emit_as_metrics routes =
          (routes.flatMap routeSpanNames).toFinset) ∧
    spans_to_emit_as_metrics
        [APIRoute.mk "/hash" ["POST"],
         APIRoute.mk "/slow/and/unstable" ["GET"]] =
      {"POST /hash", "GET /slow/and/unstable"} :=
  ⟨spans_eq, by decide⟩

/-- C6.  For every matched valid span, the recorded sample's attribute
set has exactly the four keys, each read independently from the span's
attribute mapping: a key missing from the span yields `none` for that
dimension only, while present keys are still populated. -/
theorem C6_theorem (p : SpanToMetricProcessor) (log : List Sample)
    (span : Span) (s e : Int) (hmem : span.name ∈ p.span_names)
    (hs : span.start_time = some s) (he : span.end_time = some e)
    (hs0 : s ≠ 0) (he0 : e ≠ 0) :
    ∃ amt : ℚ, (p.on_end log span).2 =
      log ++ [{ amount := amt
                attributes :=
                  { http_method := span.attributes.lookup HTTP_METHOD
                    http_route := span.attributes.lookup HTTP_ROUTE
                    http_status_code := span.attributes.lookup HTTP_STATUS_CODE
                    http_flavor := span.attributes.lookup HTTP_FLAVOR } }] := by
  refine ⟨((e - s : Int) : ℚ) / 1000000, ?_⟩
  unfold SpanToMetricProcessor.on_end
  rw [hs, he]
  simp [hmem, pyFalsy, hs0, he0]

/-- C6, witness: a matched valid span carrying only the HTTP-method
attribute yields one sample whose method dimension is populated and
whose other three dimensions are absent. -/
theorem C6_witness :
    ∃ amt : ℚ,
      ((SpanToMetricProcessor.mk {"GET /ping"} 0).on_end []
        (Span.mk "GET /ping" (some 1000000) (some 6000000)
          [(HTTP_METHOD, AttrValue.str "GET")])).2 =
      [] ++ [{ amount := amt
               attributes :=
                 { http_method := some (AttrValue.str "GET")
                   http_route := none
                   http_status_code := none
                   http_flavor := none } }] :=
  C6_theorem _ _ _ _ _ (by decide) rfl rfl (by decide) (by decide)

/-- C7.  An empty route table yields an empty allow-list; `setup_otel`
then registers no metric processor at all (the guard
`if span_metrics_names:` is falsy on the empty set), so the metrics path
records nothing for any span; and even a processor constructed with an
empty allow-list is a total no-op on every span. -/
theorem C7_theorem :
    spans_to_emit_as_metrics [] = ∅ ∧
    setup_otel (some (spans_to_emit_as_metrics [])) = [] ∧
    (∀ (log : List Sample) (span : Span),
        pipeline_on_end (setup_otel (some (spans_to_emit_as_metrics [])))
          log span = log) ∧
    (∀ (histo : Nat) (log : List Sample) (span : Span),
        (SpanToMetricProcessor.mk ∅ histo).on_end log span =
          (SpanToMetricProcessor.mk ∅ histo, log)) := by
  refine ⟨rfl, by decide, fun log span => rfl, fun histo log span => ?_⟩
  unfold SpanToMetricProcessor.on_end
  simp

/-- C8.  Allow-list construction is a pure function of the route table's
contents: any two enumeration orders of the same (path, methods) pairs
produce the same set.  (Determinism across repeated calls on the same
table is definitional for the pure fold.) -/
theorem C8_theorem (rt1 rt2 : List APIRoute) (h : rt1.Perm rt2) :
    spans_to_emit_as_metrics rt1 = spans_to_emit_as_metrics rt2 := by
  rw [spans_eq, spans_eq]
  exact List.toFinset_eq_of_perm _ _ (List.Perm.flatMap_right _ h)

/-- C8, witness: the two orders of the two-route table of the spec
produce the same allow-list. -/
theorem C8_witness :
    spans_to_emit_as_metrics
        [APIRoute.mk "/hash" ["POST"],
         APIRoute.mk "/slow/and/unstable" ["GET"]] =
      spans_to_emit_as_metrics
        [APIRoute.mk "/slow/and/unstable" ["GET"],
         APIRoute.mk "/hash" ["POST"]] :=
  C8_theorem _ _ (List.Perm.swap _ _ _)

/-- C9.  For every allow-listed span with a present-but-zero start or
end timestamp, `on_end` records zero samples: the truthiness validity
check rejects zero-valued timestamps exactly like absent ones. -/
theorem C9_theorem (p : SpanToMetricProcessor) (log : List Sample)
    (span : Span) (hmem : span.name ∈ p.span_names)
    (h : span.start_time = some 0 ∨ span.end_time = some 0) :
    p.on_end log span = (p, log) := by
  unfold SpanToMetricProcessor.on_end
  rcases h with h | h <;> rw [h] <;> simp [hmem, pyFalsy]

/-- C9, witness: an allow-listed span with end_time = 0 ns and a nonzero
start records zero samples. -/
theorem C9_witness :
    (SpanToMetricProcessor.mk {"GET /ping"} 0).on_end []
        (Span.mk "GET /ping" (some 5000000) (some 0) []) =
      (SpanToMetricProcessor.mk {"GET /ping"} 0, []) :=
  C9_theorem _ _ _ (by decide) (Or.inr rfl)

/-- C10.  Every `on_end` call leaves the processor's own state — the
allow-list `span_names` and the instrument handle
`request_latency_histogram` — unchanged, for every span; its only effect
on the histogram log is at most one appended sample. -/
theorem C10_theorem (p : SpanToMetricProcessor) (log : List Sample)
    (span : Span) :
    (p.on_end log span).1 = p ∧
      ((p.on_end log span).2 = log ∨
        ∃ smp, (p.on_end log span).2 = log ++ [smp]) := by
  unfold SpanToMetricProcessor.on_end
  dsimp only
  split
  · exact ⟨rfl, Or.inl rfl⟩
  split
  · exact ⟨rfl, Or.inl rfl⟩
  exact ⟨rfl, Or.inr ⟨_, rfl⟩⟩
